import Mathlib

/-!
Verification development for the sensor-capture core of `zed-open-capture`
(`src/sensorcapture.cpp`).  The acquisition worker
`SensorCapture::grabThreadFunc` is embedded shallowly: one iteration of its
`while (!mStopCapture)` loop becomes the pure function `grabStep` acting on an
explicit `GrabState`; the HID read result, the host clock readings and the
frame timestamp of the video collaborator consumed during one iteration are
gathered in a `GrabInput`.  Machine integers are modelled as `Nat`/`Int` with
explicit reduction modulo `2^64` where the C++ code computes in `uint64_t`;
IEEE-754 values are modelled exactly: the cast of the 32-bit tick counter to
`float` is the 24-bit significand rounding `floatRound24`, and all further
arithmetic on `double` in the source is exact on the values reached there, so
it is carried out in `ℚ` (`std::round` becomes `roundHalf`, the truncating
`static_cast<uint64_t>(double)` becomes `truncQ`).
-/

namespace ZedOC

/-- Report id of the 64-byte sensor-data interrupt report (`REP_ID_SENSOR_DATA`,
value 0x05 per the HID report table of the spec). -/
def REP_ID_SENSOR_DATA : ℕ := 5

/-- Sentinel for an invalid camera-die temperature.  Modelled from the spec:
`TEMP_NOT_VALID = 0x7FFF` is declared in the header, which is not under
`src/`. -/
def TEMP_NOT_VALID : ℤ := 0x7FFF

/-- Number of drift corrections considered part of the bootstrap.  Modelled
from the spec: `NTP_ADJUST_CT = 3` is declared in the header, which is not
under `src/`; the spec gives the default 3. -/
def NTP_ADJUST_CT : ℕ := 3

/-- Nanoseconds per MCU tick.  Modelled from the spec: `TS_SCALE = 39.0625`
(= 625/16, exactly representable in both `float` and `double`) is declared in
the header, which is not under `src/`. -/
def TS_SCALE : ℚ := 625 / 16

/-- `SensMagData::NEW_VAL`: the magnetometer status encoding of the spec is
0 = old, 1 = new, 2 = invalid. -/
def MAG_NEW_VAL : ℕ := 1

/-- `SensEnvData::NEW_VAL`: same encoding as the magnetometer status. -/
def ENV_NEW_VAL : ℕ := 1

/-- `sizeof(SensData)`: the on-wire sensor record is 64 bytes (spec data
model; the struct itself is declared in the header, not under `src/`). -/
def sensDataSize : ℤ := 64

/-- Modulus of `uint64_t` arithmetic. -/
def U64 : ℕ := 2 ^ 64

/-- Conversion of an integer to `uint64_t` (wrap modulo `2^64`). -/
def u64ofInt (z : ℤ) : ℕ := (z % (U64 : ℤ)).toNat

/-- `uint64_t` subtraction `a - b`, wrapping modulo `2^64`. -/
def u64sub (a b : ℕ) : ℕ := u64ofInt ((a : ℤ) - (b : ℤ))

/-- Number of binary digits of `n`, by fuel-bounded structural recursion so
that it reduces inside the kernel; fuel 64 covers every value fed to it by
the 32-bit tick counter. -/
def bits : ℕ → ℕ → ℕ
  | 0, _ => 0
  | fuel + 1, n => if n = 0 then 0 else bits fuel (n / 2) + 1

/-- Rounding of a natural number to the 24-bit significand of `float`
(round to nearest, ties to even): the value of
`static_cast<float>(x)` for a `uint32_t` argument `x`. -/
def floatRound24 (n : ℕ) : ℕ :=
  if n ≤ 2 ^ 24 then n
  else
    let s := bits 64 n - 24
    let q := n / 2 ^ s
    let r := n % 2 ^ s
    if 2 * r > 2 ^ s ∨ (2 * r = 2 ^ s ∧ q % 2 = 1) then (q + 1) * 2 ^ s
    else q * 2 ^ s

/-- `std::round` on a non-negative real value, landing in `ℕ`
(round half away from zero, which for non-negative arguments is
`⌊x + 1/2⌋`). -/
def roundHalf (x : ℚ) : ℕ := (⌊x + 1 / 2⌋).toNat

/-- `static_cast<uint64_t>` of a non-negative `double` value: truncation
toward zero. -/
def truncQ (x : ℚ) : ℕ := (⌊x⌋).toNat

/-- `mcu_ts_nsec` as computed at sensorcapture.cpp:335:
`static_cast<uint64_t>(std::round(static_cast<float>(data->timestamp)*TS_SCALE))`.
The product of the 24-bit-rounded tick value with 625/16 needs at most 42
significand bits, so the `double` multiplication is exact and is modelled in
`ℚ`. -/
def mcuTsNsec (ticks : ℕ) : ℕ := roundHalf ((floatRound24 ticks : ℚ) * TS_SCALE)

/-- The decoded on-wire sensor record (`SensData`, spec data-model layout).
Integer fields keep their raw (unscaled) values; the unsigned fields are
`ℕ`, the signed 16-bit fields `ℤ`. -/
structure SensData where
  frame_sync : ℕ
  frame_sync_count : ℕ
  imu_not_valid : ℕ
  timestamp : ℕ
  gX : ℤ
  gY : ℤ
  gZ : ℤ
  aX : ℤ
  aY : ℤ
  aZ : ℤ
  imu_temp : ℤ
  mag_valid : ℕ
  mX : ℤ
  mY : ℤ
  mZ : ℤ
  env_valid : ℕ
  temp : ℤ
  press : ℤ
  humid : ℤ
  temp_cam_left : ℤ
  temp_cam_right : ℤ
  sync_capabilities : ℕ
  deriving DecidableEq

/-- Everything the loop body consumes from its environment in one iteration:
the `hid_read_timeout` result `res`, the first byte of the received buffer,
the decoded record, the values returned by `getSysTs` and `getSteadyTs`
during this iteration, and `mVideoPtr->mLastFrame.timestamp`. -/
structure GrabInput where
  res : ℤ
  buf0 : ℕ
  data : SensData
  sysTs : ℕ
  steadyTs : ℕ
  videoTs : ℕ
  deriving DecidableEq

/-- State of the acquisition worker: the members of `SensorCapture` touched
by `grabThreadFunc` plus its locals that live across iterations
(`ping_data_count`, `rel_mcu_ts`, and the function-static `offset_sum` /
`count` of the offset re-alignment).  The four published cells keep the
fields the claims refer to (validity, sync flag, timestamp) together with
their `mNew...Data` fresh flags; the constant per-axis scale multipliers
(`ACC_SCALE`, ..., declared in the header, not under `src/`) only rescale
payload fields no claim mentions, so those payload fields are not tracked. -/
structure GrabState where
  blockingMode : Bool
  grabRunning : Bool
  pingDataCount : ℕ
  firstImuData : Bool
  startSysTs : ℕ
  lastMcuTs : ℕ
  relMcuTs : ℕ
  ntpScaling : ℚ
  syncOffset : ℤ
  lastFrameSyncCount : ℕ
  lastSysSyncTs : ℕ
  lastMcuSyncTs : ℕ
  sysTsQueue : List ℕ
  mcuTsQueue : List ℕ
  ntpAdjustedCount : ℕ
  offsetSum : ℤ
  offsetCount : ℕ
  imuValid : ℕ
  imuSync : ℕ
  imuTimestamp : ℕ
  newIMUData : Bool
  magValid : ℕ
  magTimestamp : ℕ
  newMagData : Bool
  envValid : ℕ
  envTimestamp : ℕ
  newEnvData : Bool
  camTempValid : Bool
  camTempTimestamp : ℕ
  newCamTempData : Bool
  deriving DecidableEq

/-- Outcome of one loop iteration: the two early `continue` paths
(short read, report-id mismatch), the bootstrap `continue`, or a fully
processed record. -/
inductive StepKind where
  | skipShortRead
  | skipBadId
  | bootstrap
  | processed
  deriving DecidableEq

/-- Clamp of the raw drift scale, sensorcapture.cpp:391-392:
`if (scale > 1.2) scale = 1.2; if (scale < 0.8) scale = 0.8;`. -/
def clampScale (q : ℚ) : ℚ :=
  if q > 6 / 5 then 6 / 5 else if q < 4 / 5 then 4 / 5 else q

/-- `first_index` choice of sensorcapture.cpp:380-383: 5, replaced by
`size_max/2 = 25` while `mNTPAdjustedCount <= NTP_ADJUST_CT`. -/
def driftFirstIndex (s : GrabState) : ℕ :=
  if s.ntpAdjustedCount ≤ NTP_ADJUST_CT then 25 else 5

/-- The raw (pre-clamp) drift scale of sensorcapture.cpp:385-389:
`double(last_ts_cam-first_ts_cam) / double(last_ts_imu-first_ts_imu)`, with
the subtractions in `uint64_t` and the division exact (modelled in `ℚ`). -/
def driftRawScale (s : GrabState) : ℚ :=
  let first_index := driftFirstIndex s
  let first_ts_imu := s.mcuTsQueue.getD first_index 0
  let last_ts_imu := s.mcuTsQueue.getD (s.mcuTsQueue.length - 1) 0
  let first_ts_cam := s.sysTsQueue.getD first_index 0
  let last_ts_cam := s.sysTsQueue.getD (s.sysTsQueue.length - 1) 0
  (u64sub last_ts_cam first_ts_cam : ℚ) / (u64sub last_ts_imu first_ts_imu : ℚ)

/-- The drift update executed when both timestamp queues hold 50 entries,
sensorcapture.cpp:377-418: clamp the raw scale, multiply `mNTPTsScaling` by
it, clear both queues, bump `mNTPAdjustedCount`, and run the static offset
re-alignment (`offset_sum`, `count`, and on the third pass an integer
division by 3 truncating toward zero, added to `mSyncOffset`). -/
def driftUpdate (s : GrabState) (curTs videoTs : ℕ) : GrabState :=
  let scale := clampScale (driftRawScale s)
  let s1 := { s with
    ntpScaling := s.ntpScaling * scale
    mcuTsQueue := ([] : List ℕ)
    sysTsQueue := ([] : List ℕ)
    ntpAdjustedCount := s.ntpAdjustedCount + 1
    offsetSum := s.offsetSum + ((curTs : ℤ) - (videoTs : ℤ))
    offsetCount := s.offsetCount + 1 }
  if s1.offsetCount = 3 then
    { s1 with
      syncOffset := s1.syncOffset + Int.tdiv s1.offsetSum 3
      offsetSum := 0
      offsetCount := 0 }
  else s1

/-- The camera/sensor synchronization block, sensorcapture.cpp:359-420
(entered only when `data->sync_capabilities != 0`): on a sync edge record
the steady host timestamp and the aligned MCU timestamp, append them to the
paired queues, and once both queues hold 50 entries run `driftUpdate`. -/
def syncBlock (s : GrabState) (d : SensData) (mcuNs curTs steadyTs videoTs : ℕ) :
    GrabState :=
  if s.lastFrameSyncCount ≠ 0 ∧
      (d.frame_sync ≠ 0 ∨ d.frame_sync_count > s.lastFrameSyncCount) then
    let s1 := { s with
      lastSysSyncTs := steadyTs
      lastMcuSyncTs := mcuNs
      sysTsQueue := s.sysTsQueue ++ [steadyTs]
      mcuTsQueue := s.mcuTsQueue ++ [curTs] }
    if s1.sysTsQueue.length = 50 ∧ s1.mcuTsQueue.length = 50 then
      driftUpdate s1 curTs videoTs
    else s1
  else s

/-- The publication section, sensorcapture.cpp:424-513.  IMU data are always
written (valid flag from `imu_not_valid != 1`, encoded with 1 for the enum
`NEW_VAL`); the magnetometer and environmental cells only on `NEW_VAL`
status, with the corresponding `else` branches overwriting
`mLastIMUData.valid` with `data->mag_valid` exactly as the source does
(lines 460 and 489); the camera-temperature cell repeats the source
condition, which tests `temp_cam_left` twice (lines 494-495). -/
def publish (s : GrabState) (d : SensData) (curTs : ℕ) : GrabState :=
  let sImu := { s with
    imuSync := d.frame_sync
    imuValid := if d.imu_not_valid ≠ 1 then 1 else 0
    imuTimestamp := curTs
    newIMUData := true }
  let sMag := if d.mag_valid = MAG_NEW_VAL then
      { sImu with
        magValid := MAG_NEW_VAL
        magTimestamp := curTs
        newMagData := true }
    else { sImu with imuValid := d.mag_valid }
  let sEnv := if d.env_valid = ENV_NEW_VAL then
      { sMag with
        envValid := ENV_NEW_VAL
        envTimestamp := curTs
        newEnvData := true }
    else { sMag with imuValid := d.mag_valid }
  if d.temp_cam_left ≠ TEMP_NOT_VALID ∧ d.temp_cam_left ≠ TEMP_NOT_VALID ∧
      d.env_valid = ENV_NEW_VAL then
    { sEnv with
      camTempValid := true
      camTempTimestamp := curTs
      newCamTempData := true }
  else { sEnv with camTempValid := false }

/-- `ping_data_count` update at the top of every iteration,
sensorcapture.cpp:298-302 (the counter is reset when it reaches 400, then
incremented; the ping itself is a feature report whose failure is only a
warning). -/
def pingCountStep (c : ℕ) : ℕ := (if c ≥ 400 then 0 else c) + 1

/-- One iteration of the `while (!mStopCapture)` loop of
`SensorCapture::grabThreadFunc`, sensorcapture.cpp:293-514.  Short reads
(`res < sizeof(SensData)`) and report-id mismatches switch the handle to
blocking mode (`hid_set_nonblocking(h, 0)`) and `continue`; the first record
with `imu_not_valid != 1` only records `mStartSysTs` and `mLastMcuTs` and is
dropped; every other record updates the relative MCU time with the
drift-corrected delta, runs the synchronization block when the device
advertises sync capabilities, refreshes `mLastFrameSyncCount`, and
publishes. -/
def grabStep (s0 : GrabState) (inp : GrabInput) : GrabState × StepKind :=
  let s := { s0 with pingDataCount := pingCountStep s0.pingDataCount,
                     grabRunning := true }
  if inp.res < sensDataSize then
    ({ s with blockingMode := true }, .skipShortRead)
  else if inp.buf0 ≠ REP_ID_SENSOR_DATA then
    ({ s with blockingMode := true }, .skipBadId)
  else
    let mcuNs := mcuTsNsec inp.data.timestamp
    if s.firstImuData ∧ inp.data.imu_not_valid ≠ 1 then
      ({ s with
          startSysTs := inp.sysTs
          lastMcuTs := mcuNs
          firstImuData := false }, .bootstrap)
    else
      let delta := u64sub mcuNs s.lastMcuTs
      let rel := (s.relMcuTs + truncQ ((delta : ℚ) * s.ntpScaling)) % U64
      let curTs := u64ofInt ((s.startSysTs : ℤ) - s.syncOffset + (rel : ℤ))
      let s1 := { s with lastMcuTs := mcuNs, relMcuTs := rel }
      let s2 := if inp.data.sync_capabilities ≠ 0 then
          syncBlock s1 inp.data mcuNs curTs inp.steadyTs inp.videoTs
        else s1
      let s3 := { s2 with lastFrameSyncCount := inp.data.frame_sync_count }
      (publish s3 inp.data curTs, .processed)

/-- The worker state at the top of `grabThreadFunc`: the function itself
clears the fresh flags and `mFirstImuData`/`rel_mcu_ts`/`ping_data_count`
(lines 272-291); the remaining members carry their constructor defaults.
Modelled from the spec for the members initialized in the header (not under
`src/`): `ntp_scale` starts at 1.0, `sync_offset_ns`, the queues, the
counters and the cells start empty/zero. -/
def initGrabState : GrabState where
  blockingMode := false
  grabRunning := false
  pingDataCount := 0
  firstImuData := true
  startSysTs := 0
  lastMcuTs := 0
  relMcuTs := 0
  ntpScaling := 1
  syncOffset := 0
  lastFrameSyncCount := 0
  lastSysSyncTs := 0
  lastMcuSyncTs := 0
  sysTsQueue := []
  mcuTsQueue := []
  ntpAdjustedCount := 0
  offsetSum := 0
  offsetCount := 0
  imuValid := 0
  imuSync := 0
  imuTimestamp := 0
  newIMUData := false
  magValid := 0
  magTimestamp := 0
  newMagData := false
  envValid := 0
  envTimestamp := 0
  newEnvData := false
  camTempValid := false
  camTempTimestamp := 0
  newCamTempData := false

/-- The loop run over a list of per-iteration inputs (no stop request). -/
def grabRun (s : GrabState) (inputs : List GrabInput) : GrabState :=
  inputs.foldl (fun st i => (grabStep st i).1) s

/-- The first `n` values of an input stream, in order. -/
def streamTake : ℕ → (ℕ → GrabInput) → List GrabInput
  | 0, _ => []
  | n + 1, f => f 0 :: streamTake n (fun k => f (k + 1))

/-- The `while (!mStopCapture)` loop itself: each turn first reads the stop
flag and exits when it is set, otherwise processes the next input.  `fuel`
bounds the number of turns observed. -/
def grabLoop : ℕ → GrabState → (ℕ → Bool) → (ℕ → GrabInput) → GrabState
  | 0, s, _, _ => s
  | n + 1, s, stop, inp =>
    if stop 0 then s
    else grabLoop n (grabStep s (inp 0)).1 (fun k => stop (k + 1))
      (fun k => inp (k + 1))

/-- `SensorCapture::getLastIMUData`, sensorcapture.cpp:541-560: wait up to the
timeout for `mNewIMUData`, returning null on expiry, otherwise clear the flag
under the mutex and hand out the stored record.  With no intervening publish
the flag cannot change during the wait, so the timed busy-wait collapses to a
single test of the flag; the payload is the (valid, sync, timestamp) triple
kept in the cell. -/
def getLastIMUData (s : GrabState) : Option (ℕ × ℕ × ℕ) × GrabState :=
  if s.newIMUData then
    (some (s.imuValid, s.imuSync, s.imuTimestamp), { s with newIMUData := false })
  else (none, s)

/-- `SensorCapture::getLastMagData`, sensorcapture.cpp:562-581; same shape as
the IMU getter, payload (valid, timestamp). -/
def getLastMagData (s : GrabState) : Option (ℕ × ℕ) × GrabState :=
  if s.newMagData then
    (some (s.magValid, s.magTimestamp), { s with newMagData := false })
  else (none, s)

/-- `SensorCapture::getLastEnvData`, sensorcapture.cpp:583-602; same shape as
the IMU getter, payload (valid, timestamp). -/
def getLastEnvData (s : GrabState) : Option (ℕ × ℕ) × GrabState :=
  if s.newEnvData then
    (some (s.envValid, s.envTimestamp), { s with newEnvData := false })
  else (none, s)

/-- `SensorCapture::getLastCamTempData`, sensorcapture.cpp:604-623; same shape
as the IMU getter, payload (valid, timestamp). -/
def getLastCamTempData (s : GrabState) : Option (Bool × ℕ) × GrabState :=
  if s.newCamTempData then
    (some (s.camTempValid, s.camTempTimestamp), { s with newCamTempData := false })
  else (none, s)

/-- Facade state for `init`/`startCapture`: the `mInitialized` member and
whether the grab thread has been spawned. -/
structure FacadeState where
  initialized : Bool
  threadSpawned : Bool
  deriving DecidableEq

/-- `SensorCapture::startCapture`, sensorcapture.cpp:233-243: if
`enableDataStream(true)` fails (outcome `enableOk`, a transport interaction),
return false without spawning the grab thread; otherwise spawn it and return
true. -/
def startCapture (enableOk : Bool) (s : FacadeState) : Bool × FacadeState :=
  if enableOk = false then (false, s)
  else (true, { s with threadSpawned := true })

/-- `SensorCapture::init`, sensorcapture.cpp:89-153, reduced to its control
flow: `openOk` is whether `hid_open` yields a handle.  On open failure the
function returns false; on success it stores `mInitialized := startCapture()`
and returns true unconditionally (line 152). -/
def init (openOk enableOk : Bool) (s : FacadeState) : Bool × FacadeState :=
  if openOk = false then (false, s)
  else
    let r := startCapture enableOk s
    (true, { r.2 with initialized := r.1 })

/-- Concrete sensor record used by the counterexample runs: a valid IMU
sample on every field, tick counter `25600 * k` (one millisecond of MCU time
per step), one frame-sync edge per record. -/
def mkData (k : ℕ) : SensData where
  frame_sync := 1
  frame_sync_count := k + 1
  imu_not_valid := 0
  timestamp := 25600 * k
  gX := 0
  gY := 0
  gZ := 0
  aX := 0
  aY := 0
  aZ := 0
  imu_temp := 0
  mag_valid := 1
  mX := 0
  mY := 0
  mZ := 0
  env_valid := 1
  temp := 0
  press := 0
  humid := 0
  temp_cam_left := 0
  temp_cam_right := 0
  sync_capabilities := 1

/-- Iteration inputs of the drift-compounding run: full 64-byte reads with
the correct report id, host steady clock advancing 2 ms per record while the
aligned MCU time advances 1 ms, so each drift window measures a raw scale of
2 (clamped to 1.2). -/
def c1Input (k : ℕ) : GrabInput where
  res := 64
  buf0 := 5
  data := mkData k
  sysTs := 10 ^ 9
  steadyTs := 2000000 * k
  videoTs := 0

/-- 102 iterations: bootstrap, one armed record, then two full 50-edge drift
windows. -/
def c1Inputs : List GrabInput := (List.range 102).map c1Input

/-- A bootstrap record (tick counter 0, no sync capabilities). -/
def bootInput : GrabInput where
  res := 64
  buf0 := 5
  data := { mkData 0 with sync_capabilities := 0 }
  sysTs := 1000
  steadyTs := 0
  videoTs := 0

/-- A record at the top of the 32-bit tick range. -/
def wrapInputB : GrabInput :=
  { bootInput with data := { mkData 0 with sync_capabilities := 0, timestamp := 4294967295 } }

/-- The record right after the tick counter wraps back to 0. -/
def wrapInputC : GrabInput :=
  { bootInput with data := { mkData 0 with sync_capabilities := 0, timestamp := 0 } }

/-- A post-bootstrap record with a stale magnetometer status
(`mag_valid = 0`, the OLD encoding) and a valid IMU sample. -/
def c2Input : GrabInput :=
  { bootInput with
    data := { mkData 0 with
              sync_capabilities := 0
              mag_valid := 0
              env_valid := 0
              timestamp := 25600 } }

/-- A post-bootstrap record with a fresh environmental sample, a valid left
camera temperature and the right camera temperature equal to the
`TEMP_NOT_VALID` sentinel. -/
def c3Input : GrabInput :=
  { bootInput with
    data := { mkData 0 with
              sync_capabilities := 0
              env_valid := 1
              temp_cam_left := 0
              temp_cam_right := 0x7FFF
              timestamp := 25600 } }

/-- A registry state in which all four modality cells are fresh. -/
def c9State : GrabState :=
  { initGrabState with
    newIMUData := true
    newMagData := true
    newEnvData := true
    newCamTempData := true }

/-- A worker state just after bootstrap (aligner armed, start time 1000). -/
def c4State : GrabState :=
  { initGrabState with firstImuData := false, startSysTs := 1000 }

/-- A plain processed record: one tick millisecond, no sync capabilities. -/
def procInput : GrabInput :=
  { bootInput with data := { mkData 0 with sync_capabilities := 0, timestamp := 25600 } }

/-- A second processed record, one more tick millisecond along. -/
def procInput2 : GrabInput :=
  { bootInput with data := { mkData 0 with sync_capabilities := 0, timestamp := 51200 } }

/-- A worker state after one drift update has raised the scaling to 1.2. -/
def c5State : GrabState :=
  { initGrabState with firstImuData := false, ntpScaling := 6 / 5 }

/-- A record one MCU tick after the epoch (39.0625 ns, rounded to 39). -/
def c5Input : GrabInput :=
  { bootInput with data := { mkData 0 with sync_capabilities := 0, timestamp := 1 } }

/-- A worker state whose paired sync queues hold 49 entries each: the host
steady timestamps advance 2 ms per edge and the aligned MCU timestamps 1 ms
per edge. -/
def c7State : GrabState :=
  { initGrabState with
    firstImuData := false
    lastFrameSyncCount := 1
    sysTsQueue := (List.range 49).map (fun i => 2000000 * (i + 2))
    mcuTsQueue := (List.range 49).map (fun i => 1000000 * (i + 2)) }

/-- Drift scale as the spec words it, stated on the queues as they stand
when the 50th edge (host `steadyTs`, aligned `curTs`) is appended:
`(host[last] - host[first_index]) / (mcu[last] - mcu[first_index])` with
`last = 49`.  This is the spec-side formula the code is compared against. -/
def specDriftScale (s : GrabState) (curTs steadyTs : ℕ) : ℚ :=
  (u64sub ((s.sysTsQueue ++ [steadyTs]).getD 49 0)
      ((s.sysTsQueue ++ [steadyTs]).getD (driftFirstIndex s) 0) : ℚ) /
    (u64sub ((s.mcuTsQueue ++ [curTs]).getD 49 0)
      ((s.mcuTsQueue ++ [curTs]).getD (driftFirstIndex s) 0) : ℚ)

/-- The state after an error `continue` of the worker loop: ping counter
advanced, running flag raised, handle switched to blocking mode, everything
else intact. -/
def skipState (s : GrabState) : GrabState :=
  { s with
    pingDataCount := pingCountStep s.pingDataCount
    grabRunning := true
    blockingMode := true }

/-- An interrupt read that returned fewer bytes than `sizeof(SensData)`. -/
def shortReadInput : GrabInput := { bootInput with res := 10 }

/-- A full-size read whose first byte is not the sensor-data report id. -/
def badIdInput : GrabInput := { bootInput with buf0 := 3 }

/-! Helper lemmas shared by the claim theorems. -/

theorem u64ofInt_of_lt {z : ℤ} (h0 : 0 ≤ z) (h1 : z < (U64 : ℤ)) :
    (u64ofInt z : ℤ) = z := by
  unfold u64ofInt
  rw [Int.emod_eq_of_lt h0 h1, Int.toNat_of_nonneg h0]

theorem u64sub_of_le {a b : ℕ} (hba : b ≤ a) (ha : a < U64) :
    u64sub a b = a - b := by
  unfold u64sub u64ofInt
  have h0 : (0 : ℤ) ≤ (a : ℤ) - b := by omega
  have h1 : (a : ℤ) - b < (U64 : ℤ) := by
    have : (a : ℤ) < (U64 : ℤ) := by exact_mod_cast ha
    omega
  rw [Int.emod_eq_of_lt h0 h1]
  omega

theorem le_clampScale (q : ℚ) : 4 / 5 ≤ clampScale q := by
  unfold clampScale
  split_ifs <;> linarith

theorem clampScale_le (q : ℚ) : clampScale q ≤ 6 / 5 := by
  unfold clampScale
  split_ifs <;> linarith

theorem driftUpdate_ntpScaling (s : GrabState) (c v : ℕ) :
    (driftUpdate s c v).ntpScaling = s.ntpScaling * clampScale (driftRawScale s) := by
  simp only [driftUpdate]
  split <;> rfl

theorem driftUpdate_queues (s : GrabState) (c v : ℕ) :
    (driftUpdate s c v).sysTsQueue = [] ∧ (driftUpdate s c v).mcuTsQueue = [] ∧
      (driftUpdate s c v).ntpAdjustedCount = s.ntpAdjustedCount + 1 := by
  simp only [driftUpdate]
  split <;> exact ⟨rfl, rfl, rfl⟩

theorem driftUpdate_relMcuTs (s : GrabState) (c v : ℕ) :
    (driftUpdate s c v).relMcuTs = s.relMcuTs := by
  simp only [driftUpdate]
  split <;> rfl

theorem syncBlock_relMcuTs (s : GrabState) (d : SensData) (m c st v : ℕ) :
    (syncBlock s d m c st v).relMcuTs = s.relMcuTs := by
  simp only [syncBlock]
  split
  · split
    · exact driftUpdate_relMcuTs _ _ _
    · rfl
  · rfl

theorem publish_relMcuTs (s : GrabState) (d : SensData) (c : ℕ) :
    (publish s d c).relMcuTs = s.relMcuTs := by
  simp only [publish]
  split <;> split <;> split <;> rfl

/-! Claim C1. -/

unseal Rat.mul Rat.add Rat.sub Rat.inv in
set_option maxRecDepth 100000 in
/-- C1, counterexample.  The claim states that `mNTPTsScaling` never leaves
`[0.8, 1.2]` starting from 1.0.  On the run `c1Inputs` (bootstrap, then two
full 50-edge drift windows in which the host steady clock advances twice as
fast as the corrected MCU clock) both raw scales are clamped to 1.2, and the
source multiplies `mNTPTsScaling` by each clamped factor
(sensorcapture.cpp:395), so the product reaches 1.44 ∉ [0.8, 1.2]. -/
theorem C1_counterexample :
    (grabRun initGrabState c1Inputs).ntpScaling = 36 / 25 ∧
      ¬ ((36 : ℚ) / 25 ≤ 6 / 5) :=
  ⟨by decide, by norm_num⟩

/-- C1, amended: the clamp of sensorcapture.cpp:391-392 applies to the
per-update factor, not to `mNTPTsScaling` itself; each drift update moves
`mNTPTsScaling` to `mNTPTsScaling * f` with `f ∈ [0.8, 1.2]`, so the state
variable itself can compound outside `[0.8, 1.2]`. -/
theorem C1_scale_factor_clamped (s : GrabState) (curTs videoTs : ℕ)
    (h : 0 ≤ s.ntpScaling) :
    4 / 5 * s.ntpScaling ≤ (driftUpdate s curTs videoTs).ntpScaling ∧
      (driftUpdate s curTs videoTs).ntpScaling ≤ 6 / 5 * s.ntpScaling := by
  rw [driftUpdate_ntpScaling]
  constructor
  · calc 4 / 5 * s.ntpScaling = s.ntpScaling * (4 / 5) := by ring
    _ ≤ s.ntpScaling * clampScale (driftRawScale s) :=
        mul_le_mul_of_nonneg_left (le_clampScale _) h
  · calc s.ntpScaling * clampScale (driftRawScale s)
        ≤ s.ntpScaling * (6 / 5) :=
        mul_le_mul_of_nonneg_left (clampScale_le _) h
    _ = 6 / 5 * s.ntpScaling := by ring

/-- C1, witness for the amended theorem at a concrete state. -/
theorem C1_scale_factor_clamped_witness :
    (0 : ℚ) ≤ initGrabState.ntpScaling ∧
      (4 / 5 * initGrabState.ntpScaling ≤ (driftUpdate initGrabState 0 0).ntpScaling ∧
        (driftUpdate initGrabState 0 0).ntpScaling ≤ 6 / 5 * initGrabState.ntpScaling) :=
  ⟨by decide, C1_scale_factor_clamped initGrabState 0 0 (by decide)⟩

/-! Claim C2. -/

unseal Rat.mul Rat.add Rat.sub Rat.inv in
set_option maxRecDepth 100000 in
/-- C2: the code contradicts the claim.  After a bootstrap record, the
record `c2Input` carries a valid IMU sample (`imu_not_valid = 0`) and a
stale magnetometer status (`mag_valid = 0`); the published IMU cell is fresh
and carries `sync = frame_sync`, but its valid flag has been overwritten
with `data->mag_valid` by the `else` branches at sensorcapture.cpp:460 and
489, so it is 0 instead of the NEW encoding 1 demanded by the claim. -/
theorem C2_imu_valid_overwritten :
    c2Input.data.imu_not_valid = 0 ∧
      (grabRun initGrabState [bootInput, c2Input]).newIMUData = true ∧
      (grabRun initGrabState [bootInput, c2Input]).imuSync = c2Input.data.frame_sync ∧
      (grabRun initGrabState [bootInput, c2Input]).imuValid = c2Input.data.mag_valid ∧
      (grabRun initGrabState [bootInput, c2Input]).imuValid ≠ 1 := by
  decide

/-! Claim C3. -/

unseal Rat.mul Rat.add Rat.sub Rat.inv in
set_option maxRecDepth 100000 in
/-- C3: the code contradicts the claim.  The condition at
sensorcapture.cpp:494-496 tests `temp_cam_left` against `TEMP_NOT_VALID`
twice and never tests `temp_cam_right`; the record `c3Input`, whose right
camera temperature is the sentinel, is nevertheless published to the
camera-temperature cell. -/
theorem C3_camtemp_right_unchecked :
    c3Input.data.temp_cam_right = TEMP_NOT_VALID ∧
      c3Input.data.env_valid = ENV_NEW_VAL ∧
      (grabRun initGrabState [bootInput, c3Input]).newCamTempData = true ∧
      (grabRun initGrabState [bootInput, c3Input]).camTempValid = true := by
  decide

theorem publish_imuTimestamp (s : GrabState) (d : SensData) (c : ℕ) :
    (publish s d c).imuTimestamp = c := by
  simp only [publish]
  split <;> split <;> split <;> rfl

theorem grabStep_relMcuTs (s : GrabState) (inp : GrabInput)
    (h1 : sensDataSize ≤ inp.res) (h2 : inp.buf0 = REP_ID_SENSOR_DATA)
    (h3 : s.firstImuData = false) :
    (grabStep s inp).1.relMcuTs =
      (s.relMcuTs + truncQ ((u64sub (mcuTsNsec inp.data.timestamp) s.lastMcuTs : ℚ) *
        s.ntpScaling)) % U64 := by
  have hn1 : ¬ inp.res < sensDataSize := not_lt.mpr h1
  have hn2 : ¬ inp.buf0 ≠ REP_ID_SENSOR_DATA := fun h => h h2
  simp only [grabStep, hn1, hn2, h3, if_false, ite_false, Bool.false_eq_true, false_and,
    if_true, ite_true, publish_relMcuTs]
  split
  · rw [syncBlock_relMcuTs]
  · rfl

theorem driftUpdate_stable (s : GrabState) (c v : ℕ) :
    (driftUpdate s c v).startSysTs = s.startSysTs ∧
      (driftUpdate s c v).lastMcuTs = s.lastMcuTs ∧
      (driftUpdate s c v).firstImuData = s.firstImuData := by
  simp only [driftUpdate]
  split <;> exact ⟨rfl, rfl, rfl⟩

theorem syncBlock_stable (s : GrabState) (d : SensData) (m c st v : ℕ) :
    (syncBlock s d m c st v).startSysTs = s.startSysTs ∧
      (syncBlock s d m c st v).lastMcuTs = s.lastMcuTs ∧
      (syncBlock s d m c st v).firstImuData = s.firstImuData := by
  simp only [syncBlock]
  split
  · split
    · exact driftUpdate_stable _ _ _
    · exact ⟨rfl, rfl, rfl⟩
  · exact ⟨rfl, rfl, rfl⟩

theorem publish_stable (s : GrabState) (d : SensData) (c : ℕ) :
    (publish s d c).startSysTs = s.startSysTs ∧
      (publish s d c).lastMcuTs = s.lastMcuTs ∧
      (publish s d c).firstImuData = s.firstImuData := by
  simp only [publish]
  split <;> split <;> split <;> exact ⟨rfl, rfl, rfl⟩

theorem grabStep_processed_ts (s : GrabState) (inp : GrabInput)
    (h1 : sensDataSize ≤ inp.res) (h2 : inp.buf0 = REP_ID_SENSOR_DATA)
    (h3 : s.firstImuData = false) :
    (grabStep s inp).2 = StepKind.processed ∧
      (grabStep s inp).1.imuTimestamp =
        u64ofInt ((s.startSysTs : ℤ) - s.syncOffset +
          ((s.relMcuTs + truncQ ((u64sub (mcuTsNsec inp.data.timestamp) s.lastMcuTs : ℚ) *
            s.ntpScaling)) % U64 : ℕ)) := by
  have hn1 : ¬ inp.res < sensDataSize := not_lt.mpr h1
  have hn2 : ¬ inp.buf0 ≠ REP_ID_SENSOR_DATA := fun h => h h2
  constructor
  · simp only [grabStep, hn1, hn2, h3, if_false, ite_false, Bool.false_eq_true, false_and]
  · simp only [grabStep, hn1, hn2, h3, if_false, ite_false, Bool.false_eq_true,
      false_and, publish_imuTimestamp]

theorem grabStep_processed_state (s : GrabState) (inp : GrabInput)
    (h1 : sensDataSize ≤ inp.res) (h2 : inp.buf0 = REP_ID_SENSOR_DATA)
    (h3 : s.firstImuData = false) :
    (grabStep s inp).1.startSysTs = s.startSysTs ∧
      (grabStep s inp).1.firstImuData = false ∧
      (grabStep s inp).1.lastMcuTs = mcuTsNsec inp.data.timestamp := by
  have hn1 : ¬ inp.res < sensDataSize := not_lt.mpr h1
  have hn2 : ¬ inp.buf0 ≠ REP_ID_SENSOR_DATA := fun h => h h2
  simp only [grabStep, hn1, hn2, h3, if_false, ite_false, Bool.false_eq_true, false_and]
  refine ⟨?_, ?_, ?_⟩
  · rw [(publish_stable _ _ _).1]
    split
    · rw [(syncBlock_stable _ _ _ _ _ _).1]
    · rfl
  · rw [(publish_stable _ _ _).2.2]
    split
    · rw [(syncBlock_stable _ _ _ _ _ _).2.2]
    · rfl
  · rw [(publish_stable _ _ _).2.1]
    split
    · rw [(syncBlock_stable _ _ _ _ _ _).2.1]
    · rfl

theorem grabStep_ts_mono (s : GrabState) (inp : GrabInput)
    (h1 : sensDataSize ≤ inp.res) (h2 : inp.buf0 = REP_ID_SENSOR_DATA)
    (h3 : s.firstImuData = false)
    (hmcu : s.lastMcuTs ≤ mcuTsNsec inp.data.timestamp)
    (hmcu64 : mcuTsNsec inp.data.timestamp < U64)
    (hlow : 0 ≤ (s.startSysTs : ℤ) - s.syncOffset)
    (hhigh : (s.startSysTs : ℤ) - s.syncOffset +
      ((s.relMcuTs + truncQ (((mcuTsNsec inp.data.timestamp - s.lastMcuTs : ℕ) : ℚ) *
        s.ntpScaling) : ℕ) : ℤ) < (U64 : ℤ)) :
    u64ofInt ((s.startSysTs : ℤ) - s.syncOffset + (s.relMcuTs : ℕ)) ≤
      (grabStep s inp).1.imuTimestamp := by
  obtain ⟨-, hts⟩ := grabStep_processed_ts s inp h1 h2 h3
  rw [hts, u64sub_of_le hmcu hmcu64]
  set t := truncQ (((mcuTsNsec inp.data.timestamp - s.lastMcuTs : ℕ) : ℚ) * s.ntpScaling)
    with htdef
  have hUz : ((U64 : ℕ) : ℤ) = 18446744073709551616 := by norm_num [U64]
  rw [hUz] at hhigh
  have hmod : (s.relMcuTs + t) % U64 = s.relMcuTs + t := by
    have hUn : U64 = 18446744073709551616 := by norm_num [U64]
    rw [hUn]
    exact Nat.mod_eq_of_lt (by omega)
  rw [hmod]
  unfold u64ofInt
  rw [hUz]
  omega

/-! Claim C4. -/

unseal Rat.mul Rat.add Rat.sub Rat.inv in
set_option maxRecDepth 100000 in
/-- C4, counterexample.  The claim asserts monotone published IMU timestamps
even across MCU 32-bit tick wraparound.  After bootstrap at tick 0, a record
at tick `2^32 - 1` publishes timestamp 167772161000; the next record, with
the tick counter wrapped back to 0, makes the `uint64_t` delta at
sensorcapture.cpp:346 wrap to `2^64 - 167772160000`, so `rel_mcu_ts` falls
back to 0 and the published timestamp drops to 1000. -/
theorem C4_counterexample :
    (grabStep (grabRun initGrabState [bootInput, wrapInputB]) wrapInputC).2 =
        StepKind.processed ∧
      (grabRun initGrabState [bootInput, wrapInputB]).newIMUData = true ∧
      (grabRun initGrabState [bootInput, wrapInputB]).imuTimestamp = 167772161000 ∧
      (grabRun initGrabState [bootInput, wrapInputB, wrapInputC]).imuTimestamp = 1000 ∧
      (grabRun initGrabState [bootInput, wrapInputB, wrapInputC]).imuTimestamp <
        (grabRun initGrabState [bootInput, wrapInputB]).imuTimestamp := by
  decide

/-- C4, amended: for two consecutive processed records the published IMU
timestamp is non-decreasing provided the MCU nanosecond timestamp does not
wrap between the two samples (second mcu_ns at least the first), no
sync-offset update intervenes between the two publications (the first step
leaves `mSyncOffset` unchanged; in the source the published timestamp of a
step is computed at sensorcapture.cpp:356 before the sync block that can
change `mSyncOffset` at line 410, so only an update landing between the two
publications matters), and the 64-bit accumulation
`(mStartSysTs - mSyncOffset) + rel_mcu_ts` stays inside the `uint64` range.
A standing nonzero `mSyncOffset` and sync-capable streams are covered. -/
theorem C4_monotone_no_wrap (s : GrabState) (inp1 inp2 : GrabInput)
    (hres1 : sensDataSize ≤ inp1.res) (hbuf1 : inp1.buf0 = REP_ID_SENSOR_DATA)
    (hres2 : sensDataSize ≤ inp2.res) (hbuf2 : inp2.buf0 = REP_ID_SENSOR_DATA)
    (hfirst : s.firstImuData = false)
    (hwrap : mcuTsNsec inp1.data.timestamp ≤ mcuTsNsec inp2.data.timestamp)
    (hmcu64 : mcuTsNsec inp2.data.timestamp < U64)
    (hoffstable : (grabStep s inp1).1.syncOffset = s.syncOffset)
    (hlow : 0 ≤ (s.startSysTs : ℤ) - s.syncOffset)
    (hhigh : (s.startSysTs : ℤ) - s.syncOffset +
      (((grabStep s inp1).1.relMcuTs +
        truncQ (((mcuTsNsec inp2.data.timestamp - mcuTsNsec inp1.data.timestamp : ℕ) : ℚ) *
          (grabStep s inp1).1.ntpScaling) : ℕ) : ℤ) < (U64 : ℤ)) :
    (grabStep s inp1).2 = StepKind.processed ∧
      (grabStep (grabStep s inp1).1 inp2).2 = StepKind.processed ∧
      (grabStep s inp1).1.imuTimestamp ≤
        (grabStep (grabStep s inp1).1 inp2).1.imuTimestamp := by
  obtain ⟨hk1, hts1⟩ := grabStep_processed_ts s inp1 hres1 hbuf1 hfirst
  obtain ⟨hstart, hfi, hlast⟩ := grabStep_processed_state s inp1 hres1 hbuf1 hfirst
  obtain ⟨hk2, -⟩ := grabStep_processed_ts (grabStep s inp1).1 inp2 hres2 hbuf2 hfi
  refine ⟨hk1, hk2, ?_⟩
  have hrel1 := grabStep_relMcuTs s inp1 hres1 hbuf1 hfirst
  have hts1n : (grabStep s inp1).1.imuTimestamp =
      u64ofInt (((grabStep s inp1).1.startSysTs : ℤ) - (grabStep s inp1).1.syncOffset +
        ((grabStep s inp1).1.relMcuTs : ℕ)) := by
    rw [hts1, hstart, hoffstable, hrel1]
  rw [hts1n]
  exact grabStep_ts_mono (grabStep s inp1).1 inp2 hres2 hbuf2 hfi
    (by rw [hlast]; exact hwrap) hmcu64
    (by rw [hstart, hoffstable]; exact hlow)
    (by rw [hstart, hoffstable, hlast]; exact hhigh)

unseal Rat.mul Rat.add Rat.sub Rat.inv in
set_option maxRecDepth 100000 in
/-- C4, witness for the amended theorem: two consecutive one-millisecond
records after bootstrap. -/
theorem C4_monotone_no_wrap_witness :
    (grabStep c4State procInput).2 = StepKind.processed ∧
      (grabStep (grabStep c4State procInput).1 procInput2).2 = StepKind.processed ∧
      (grabStep c4State procInput).1.imuTimestamp ≤
        (grabStep (grabStep c4State procInput).1 procInput2).1.imuTimestamp :=
  C4_monotone_no_wrap c4State procInput procInput2 (by decide) (by decide) (by decide)
    (by decide) (by decide) (by decide) (by decide) (by decide) (by decide) (by decide)

/-! Claim C5. -/

unseal Rat.mul Rat.add Rat.sub Rat.inv in
set_option maxRecDepth 100000 in
/-- C5, counterexample.  The claim asserts (a) the per-record MCU nanosecond
timestamp equals `round(ticks * TS_SCALE)` exactly over the full u32 range,
and (b) each increment added to `rel_mcu_ts` equals
`round(delta_raw * ntp_scale)`.  Both fail: (a) the source first casts the
tick counter to `float` (24-bit significand, sensorcapture.cpp:335), so at
`ticks = 2^24 + 1` the code yields 655360000 instead of
`round(16777217 * 39.0625) = 655360039`; (b) the source truncates instead of
rounding (`static_cast<uint64_t>` at sensorcapture.cpp:353): with the
reachable scaling 1.2 and a one-tick delta of 39 ns the code adds
`trunc(46.8) = 46` while the claim demands `round(46.8) = 47`. -/
theorem C5_counterexample :
    (mcuTsNsec 16777217 = 655360000 ∧
      roundHalf ((16777217 : ℚ) * TS_SCALE) = 655360039) ∧
    (mcuTsNsec 1 = 39 ∧
      (grabStep c5State c5Input).1.relMcuTs = 46 ∧
      roundHalf ((39 : ℚ) * c5State.ntpScaling) = 47) := by
  decide

/-- C5, amended: the MCU nanosecond timestamp is
`round(float(ticks) * TS_SCALE)` and agrees with the exact
`round(ticks * TS_SCALE)` only where `float` is exact (ticks up to `2^24`);
the per-sample increment is the truncation, not the rounding, of
`delta_raw * ntp_scale`. -/
theorem C5_float_and_trunc (t : ℕ) (ht : t ≤ 2 ^ 24) (s : GrabState) (inp : GrabInput)
    (hres : sensDataSize ≤ inp.res) (hbuf : inp.buf0 = REP_ID_SENSOR_DATA)
    (hfirst : s.firstImuData = false) :
    mcuTsNsec t = roundHalf ((t : ℚ) * TS_SCALE) ∧
      (grabStep s inp).1.relMcuTs =
        (s.relMcuTs + truncQ ((u64sub (mcuTsNsec inp.data.timestamp) s.lastMcuTs : ℚ) *
          s.ntpScaling)) % U64 := by
  constructor
  · unfold mcuTsNsec floatRound24
    rw [if_pos ht]
  · exact grabStep_relMcuTs s inp hres hbuf hfirst

unseal Rat.mul Rat.add Rat.sub Rat.inv in
set_option maxRecDepth 100000 in
/-- C5, witness for the amended theorem. -/
theorem C5_float_and_trunc_witness :
    mcuTsNsec 25600 = roundHalf ((25600 : ℚ) * TS_SCALE) ∧
      (grabStep c5State c5Input).1.relMcuTs =
        (c5State.relMcuTs +
          truncQ ((u64sub (mcuTsNsec c5Input.data.timestamp) c5State.lastMcuTs : ℚ) *
            c5State.ntpScaling)) % U64 :=
  C5_float_and_trunc 25600 (by norm_num) c5State c5Input (by decide) (by decide) (by decide)

/-! Claim C6. -/

/-- C6: a record arriving while `mFirstImuData` holds and carrying
`imu_not_valid = 0` takes the bootstrap branch (sensorcapture.cpp:337-344):
it records the host start time and the MCU time, clears the first-sample
flag, and is dropped by `continue`, leaving every modality cell and fresh
flag untouched. -/
theorem C6_bootstrap_drop (s : GrabState) (inp : GrabInput)
    (hres : sensDataSize ≤ inp.res) (hbuf : inp.buf0 = REP_ID_SENSOR_DATA)
    (hfirst : s.firstImuData = true) (hvalid : inp.data.imu_not_valid = 0) :
    (grabStep s inp).2 = StepKind.bootstrap ∧
      (grabStep s inp).1.startSysTs = inp.sysTs ∧
      (grabStep s inp).1.lastMcuTs = mcuTsNsec inp.data.timestamp ∧
      (grabStep s inp).1.firstImuData = false ∧
      (grabStep s inp).1.newIMUData = s.newIMUData ∧
      (grabStep s inp).1.newMagData = s.newMagData ∧
      (grabStep s inp).1.newEnvData = s.newEnvData ∧
      (grabStep s inp).1.newCamTempData = s.newCamTempData ∧
      (grabStep s inp).1.imuValid = s.imuValid ∧
      (grabStep s inp).1.imuSync = s.imuSync ∧
      (grabStep s inp).1.imuTimestamp = s.imuTimestamp ∧
      (grabStep s inp).1.magValid = s.magValid ∧
      (grabStep s inp).1.magTimestamp = s.magTimestamp ∧
      (grabStep s inp).1.envValid = s.envValid ∧
      (grabStep s inp).1.envTimestamp = s.envTimestamp ∧
      (grabStep s inp).1.camTempValid = s.camTempValid ∧
      (grabStep s inp).1.camTempTimestamp = s.camTempTimestamp := by
  have hn1 : ¬ inp.res < sensDataSize := not_lt.mpr hres
  have hn2 : ¬ inp.buf0 ≠ REP_ID_SENSOR_DATA := fun h => h hbuf
  have h3 : s.firstImuData = true ∧ inp.data.imu_not_valid ≠ 1 := ⟨hfirst, by omega⟩
  simp only [grabStep]
  rw [if_neg hn1, if_neg hn2, if_pos h3]
  exact ⟨rfl, rfl, rfl, rfl, rfl, rfl, rfl, rfl, rfl, rfl, rfl, rfl, rfl, rfl, rfl, rfl,
    rfl⟩

/-- C6, witness: the bootstrap record of the counterexample runs. -/
theorem C6_bootstrap_drop_witness :
    (grabStep initGrabState bootInput).2 = StepKind.bootstrap ∧
      (grabStep initGrabState bootInput).1.startSysTs = bootInput.sysTs ∧
      (grabStep initGrabState bootInput).1.lastMcuTs = mcuTsNsec bootInput.data.timestamp ∧
      (grabStep initGrabState bootInput).1.firstImuData = false ∧
      (grabStep initGrabState bootInput).1.newIMUData = initGrabState.newIMUData ∧
      (grabStep initGrabState bootInput).1.newMagData = initGrabState.newMagData ∧
      (grabStep initGrabState bootInput).1.newEnvData = initGrabState.newEnvData ∧
      (grabStep initGrabState bootInput).1.newCamTempData = initGrabState.newCamTempData ∧
      (grabStep initGrabState bootInput).1.imuValid = initGrabState.imuValid ∧
      (grabStep initGrabState bootInput).1.imuSync = initGrabState.imuSync ∧
      (grabStep initGrabState bootInput).1.imuTimestamp = initGrabState.imuTimestamp ∧
      (grabStep initGrabState bootInput).1.magValid = initGrabState.magValid ∧
      (grabStep initGrabState bootInput).1.magTimestamp = initGrabState.magTimestamp ∧
      (grabStep initGrabState bootInput).1.envValid = initGrabState.envValid ∧
      (grabStep initGrabState bootInput).1.envTimestamp = initGrabState.envTimestamp ∧
      (grabStep initGrabState bootInput).1.camTempValid = initGrabState.camTempValid ∧
      (grabStep initGrabState bootInput).1.camTempTimestamp =
        initGrabState.camTempTimestamp :=
  C6_bootstrap_drop initGrabState bootInput (by decide) (by decide) (by decide) (by decide)

theorem driftRawScale_eq (s1 s : GrabState) (curTs steadyTs : ℕ)
    (h1 : s1.sysTsQueue = s.sysTsQueue ++ [steadyTs])
    (h2 : s1.mcuTsQueue = s.mcuTsQueue ++ [curTs])
    (h3 : s1.ntpAdjustedCount = s.ntpAdjustedCount)
    (hl : s.sysTsQueue.length = 49) (hlm : s.mcuTsQueue.length = 49) :
    driftRawScale s1 = specDriftScale s curTs steadyTs := by
  unfold driftRawScale specDriftScale driftFirstIndex
  rw [h1, h2, h3]
  simp [hl, hlm]

/-! Claim C7. -/

/-- C7: drift-update shape.  First, `mNTPTsScaling` can change only on the
iteration in which both paired queues already hold 49 entries (the appended
edge brings them to the 50-entry capacity checked at sensorcapture.cpp:377);
with fewer edges it is unchanged.  Second, on that iteration the update uses
`first_index` 25 while `mNTPAdjustedCount ≤ 3` and 5 thereafter, multiplies
`mNTPTsScaling` by the clamp of
`(host[last] - host[first_index]) / (mcu[last] - mcu[first_index])`, the
clamped factor lies in `[0.8, 1.2]`, both queues are cleared, and
`mNTPAdjustedCount` is incremented. -/
theorem C7_drift_window (s : GrabState) (d : SensData)
    (mcuNs curTs steadyTs videoTs : ℕ) :
    ((syncBlock s d mcuNs curTs steadyTs videoTs).ntpScaling ≠ s.ntpScaling →
      s.sysTsQueue.length = 49 ∧ s.mcuTsQueue.length = 49) ∧
    (s.sysTsQueue.length = 49 → s.mcuTsQueue.length = 49 →
      s.lastFrameSyncCount ≠ 0 →
      (d.frame_sync ≠ 0 ∨ d.frame_sync_count > s.lastFrameSyncCount) →
      ((s.ntpAdjustedCount ≤ 3 → driftFirstIndex s = 25) ∧
        (3 < s.ntpAdjustedCount → driftFirstIndex s = 5) ∧
        (syncBlock s d mcuNs curTs steadyTs videoTs).ntpScaling =
          s.ntpScaling * clampScale (specDriftScale s curTs steadyTs) ∧
        4 / 5 ≤ clampScale (specDriftScale s curTs steadyTs) ∧
        clampScale (specDriftScale s curTs steadyTs) ≤ 6 / 5 ∧
        (syncBlock s d mcuNs curTs steadyTs videoTs).sysTsQueue = [] ∧
        (syncBlock s d mcuNs curTs steadyTs videoTs).mcuTsQueue = [] ∧
        (syncBlock s d mcuNs curTs steadyTs videoTs).ntpAdjustedCount =
          s.ntpAdjustedCount + 1)) := by
  constructor
  · intro hch
    simp only [syncBlock] at hch
    split at hch
    · split at hch
      · next hlen =>
          obtain ⟨ha, hb⟩ := hlen
          simp only [List.length_append, List.length_singleton] at ha hb
          omega
      · exact absurd rfl hch
    · exact absurd rfl hch
  · intro hl1 hl2 hc he
    have hcond : s.lastFrameSyncCount ≠ 0 ∧
        (d.frame_sync ≠ 0 ∨ d.frame_sync_count > s.lastFrameSyncCount) := ⟨hc, he⟩
    have hlen : (s.sysTsQueue ++ [steadyTs]).length = 50 ∧
        (s.mcuTsQueue ++ [curTs]).length = 50 := by
      simp [hl1, hl2]
    simp only [syncBlock]
    rw [if_pos hcond, if_pos hlen]
    have hraw := driftRawScale_eq
      { s with
        lastSysSyncTs := steadyTs
        lastMcuSyncTs := mcuNs
        sysTsQueue := s.sysTsQueue ++ [steadyTs]
        mcuTsQueue := s.mcuTsQueue ++ [curTs] }
      s curTs steadyTs rfl rfl rfl hl1 hl2
    refine ⟨?_, ?_, ?_, ?_, ?_, ?_, ?_, ?_⟩
    · intro h
      unfold driftFirstIndex NTP_ADJUST_CT
      rw [if_pos h]
    · intro h
      unfold driftFirstIndex NTP_ADJUST_CT
      rw [if_neg (by omega)]
    · rw [driftUpdate_ntpScaling, hraw]
    · exact le_clampScale _
    · exact clampScale_le _
    · exact (driftUpdate_queues _ _ _).1
    · exact (driftUpdate_queues _ _ _).2.1
    · exact (driftUpdate_queues _ _ _).2.2

/-- C7, witness: queues at 49 entries, an edge record, host advancing twice
as fast as the aligned MCU time (raw scale 2, clamped to 1.2). -/
theorem C7_drift_window_witness :
    (c7State.ntpAdjustedCount ≤ 3 → driftFirstIndex c7State = 25) ∧
      (3 < c7State.ntpAdjustedCount → driftFirstIndex c7State = 5) ∧
      (syncBlock c7State (mkData 50) 0 (1000000 * 51) (2000000 * 51) 0).ntpScaling =
        c7State.ntpScaling *
          clampScale (specDriftScale c7State (1000000 * 51) (2000000 * 51)) ∧
      4 / 5 ≤ clampScale (specDriftScale c7State (1000000 * 51) (2000000 * 51)) ∧
      clampScale (specDriftScale c7State (1000000 * 51) (2000000 * 51)) ≤ 6 / 5 ∧
      (syncBlock c7State (mkData 50) 0 (1000000 * 51) (2000000 * 51) 0).sysTsQueue = [] ∧
      (syncBlock c7State (mkData 50) 0 (1000000 * 51) (2000000 * 51) 0).mcuTsQueue = [] ∧
      (syncBlock c7State (mkData 50) 0 (1000000 * 51) (2000000 * 51) 0).ntpAdjustedCount =
        c7State.ntpAdjustedCount + 1 :=
  (C7_drift_window c7State (mkData 50) 0 (1000000 * 51) (2000000 * 51) 0).2
    (by decide) (by decide) (by decide) (by decide)

/-! Claim C8. -/

theorem grabLoop_no_stop (n : ℕ) (s : GrabState) (inp : ℕ → GrabInput) :
    grabLoop n s (fun _ => false) inp = grabRun s (streamTake n inp) := by
  induction n generalizing s inp with
  | zero => rfl
  | succ n ih =>
    simp only [grabLoop, streamTake, grabRun, List.foldl, Bool.false_eq_true, if_false,
      ite_false]
    exact ih ((grabStep s (inp 0)).1) (fun k => inp (k + 1))

/-- C8: protocol-error recovery.  A short interrupt read
(`res < sizeof(SensData)`) or a first byte other than the 0x05 report id
leaves every aligner and registry field unchanged, switches the handle to
blocking mode (`hid_set_nonblocking(handle, 0)`), and continues; the worker
loop itself runs every iteration for any input whatsoever while the stop
flag stays clear, and exits exactly when the stop flag is observed. -/
theorem C8_error_recovery (s : GrabState) (inp : GrabInput) (n : ℕ)
    (stream : ℕ → GrabInput) (stop : ℕ → Bool) :
    (inp.res < sensDataSize →
      (grabStep s inp).1 = skipState s ∧
        (grabStep s inp).2 = StepKind.skipShortRead) ∧
    (sensDataSize ≤ inp.res → inp.buf0 ≠ REP_ID_SENSOR_DATA →
      (grabStep s inp).1 = skipState s ∧
        (grabStep s inp).2 = StepKind.skipBadId) ∧
    grabLoop n s (fun _ => false) stream = grabRun s (streamTake n stream) ∧
    (stop 0 = true → grabLoop (n + 1) s stop stream = s) := by
  refine ⟨?_, ?_, grabLoop_no_stop n s stream, ?_⟩
  · intro h
    simp only [grabStep]
    rw [if_pos h]
    exact ⟨rfl, rfl⟩
  · intro h1 h2
    simp only [grabStep]
    rw [if_neg (not_lt.mpr h1), if_pos h2]
    exact ⟨rfl, rfl⟩
  · intro h
    simp only [grabLoop]
    rw [if_pos h]

/-- C8, witness: a 10-byte read and a report with id 3 against the initial
worker state, a three-iteration stop-free loop, and an immediate stop. -/
theorem C8_error_recovery_witness :
    ((grabStep initGrabState shortReadInput).1 = skipState initGrabState ∧
      (grabStep initGrabState shortReadInput).2 = StepKind.skipShortRead) ∧
    ((grabStep initGrabState badIdInput).1 = skipState initGrabState ∧
      (grabStep initGrabState badIdInput).2 = StepKind.skipBadId) ∧
    grabLoop 3 initGrabState (fun _ => false) (fun _ => shortReadInput) =
      grabRun initGrabState (streamTake 3 (fun _ => shortReadInput)) ∧
    grabLoop (3 + 1) initGrabState (fun _ => true) (fun _ => shortReadInput) =
      initGrabState :=
  ⟨(C8_error_recovery initGrabState shortReadInput 3 (fun _ => shortReadInput)
      (fun _ => true)).1 (by decide),
    (C8_error_recovery initGrabState badIdInput 3 (fun _ => shortReadInput)
      (fun _ => true)).2.1 (by decide) (by decide),
    (C8_error_recovery initGrabState shortReadInput 3 (fun _ => shortReadInput)
      (fun _ => true)).2.2.1,
    (C8_error_recovery initGrabState shortReadInput 3 (fun _ => shortReadInput)
      (fun _ => true)).2.2.2 rfl⟩

/-! Claim C9. -/

/-- C9: each modality getter consumes the fresh flag: when a call returns a
record, the flag is cleared, and a second call with no intervening publish
returns null (after its timeout in the timed source loop). -/
theorem C9_poll_consume_once (s : GrabState) :
    ((getLastIMUData s).1.isSome = true →
      (getLastIMUData s).2.newIMUData = false ∧
        (getLastIMUData (getLastIMUData s).2).1 = none) ∧
    ((getLastMagData s).1.isSome = true →
      (getLastMagData s).2.newMagData = false ∧
        (getLastMagData (getLastMagData s).2).1 = none) ∧
    ((getLastEnvData s).1.isSome = true →
      (getLastEnvData s).2.newEnvData = false ∧
        (getLastEnvData (getLastEnvData s).2).1 = none) ∧
    ((getLastCamTempData s).1.isSome = true →
      (getLastCamTempData s).2.newCamTempData = false ∧
        (getLastCamTempData (getLastCamTempData s).2).1 = none) := by
  unfold getLastIMUData getLastMagData getLastEnvData getLastCamTempData
  refine ⟨?_, ?_, ?_, ?_⟩ <;>
    · intro h
      split_ifs at h ⊢ with h1 <;> simp_all

/-- C9, witness: a state in which all four cells are fresh. -/
theorem C9_poll_consume_once_witness :
    ((getLastIMUData c9State).2.newIMUData = false ∧
      (getLastIMUData (getLastIMUData c9State).2).1 = none) ∧
    ((getLastMagData c9State).2.newMagData = false ∧
      (getLastMagData (getLastMagData c9State).2).1 = none) ∧
    ((getLastEnvData c9State).2.newEnvData = false ∧
      (getLastEnvData (getLastEnvData c9State).2).1 = none) ∧
    ((getLastCamTempData c9State).2.newCamTempData = false ∧
      (getLastCamTempData (getLastCamTempData c9State).2).1 = none) :=
  ⟨(C9_poll_consume_once c9State).1 (by decide),
    (C9_poll_consume_once c9State).2.1 (by decide),
    (C9_poll_consume_once c9State).2.2.1 (by decide),
    (C9_poll_consume_once c9State).2.2.2 (by decide)⟩

/-! Claim C10. -/

/-- C10: when `hid_open` succeeds, `init` returns true regardless of whether
`startCapture` managed to enable the data stream (sensorcapture.cpp:150-152);
when enabling fails no grab thread is spawned and `mInitialized` stays
false despite the true return value. -/
theorem C10_init_true_despite_enable_failure (s : FacadeState) (enableOk : Bool) :
    (init true enableOk s).1 = true ∧
      (init true false s).2.initialized = false ∧
      (init true false s).2.threadSpawned = s.threadSpawned := by
  unfold init startCapture
  cases enableOk <;> simp

end ZedOC
